import Mathlib

/-!
Verification of the GlauCat vision-simulator engines.

Shallow embedding of the three assessment engines of the repository:

* `FieldTest`    — the Stimulus Trial Engine (src/app/vision-simulator/FieldTest.tsx)
* `ContrastTest` — the Adaptive Plate Engine (src/app/vision-simulator/ContrastTest.tsx,
                   first component in that file)
* `IrisTracker`  — the Gaze Calibration Tracker (second component in the same file)

All numeric quantities the engines compute with JavaScript numbers are
modelled with exact `ℚ` / `ℤ` / `ℕ` arithmetic; `Math.round` is modelled by
`jsRound` below (round half toward positive infinity, which is the ECMAScript
semantics of `Math.round`).
-/

/-- JavaScript `Math.round`: the nearest integer, halves rounding toward
positive infinity, i.e. `⌊q + 1/2⌋`. -/
def jsRound (q : ℚ) : ℤ := ⌊q + 1/2⌋

theorem jsRound_mono {q q' : ℚ} (h : q ≤ q') : jsRound q ≤ jsRound q' := by
  exact Int.floor_le_floor (by linarith)

theorem jsRound_intCast (n : ℕ) : jsRound (n : ℚ) = (n : ℤ) := by
  unfold jsRound
  rw [Int.floor_eq_iff]
  constructor
  · push_cast; linarith
  · push_cast; linarith

namespace FieldTest

/-- The result record handed to `onResult` by `finishTest`
(`{ score, misses, avg, rts }`). -/
structure FieldResult where
  score : ℤ
  misses : ℕ
  avg : ℚ
  rts : List ℕ
deriving DecidableEq, Repr

/-- Which callback the single `timerRef` slot is currently armed with.
`showDot` arms the miss timer; a successful click arms the 800 ms pause timer
(whose callback is `showDot`); `clearTimer` disarms. The anonymous
dot-appearance timeout is not stored in `timerRef` and is modelled as the
separate `dotAppear` event. -/
inductive TimerKind
  | idle
  | missTimer
  | pauseTimer
deriving DecidableEq, Repr

/-- The mutable session state of the Stimulus Trial Engine: the refs
`reactionTimesRef`, `missesRef`, `trialRef`, `totalTrialsRef`,
`maxReactionRef`, `dotVisibleRef`, `startTimeRef`, `timerRef`, plus the
`done` flag and the emitted terminal result. -/
structure State where
  rts : List ℕ
  misses : ℕ
  trial : ℕ
  totalTrials : ℕ
  maxReaction : ℕ
  dotVisible : Bool
  startTime : Option ℕ
  timer : TimerKind
  done : Bool
  result : Option FieldResult
deriving DecidableEq, Repr

/-- Models `clearTimer()`. -/
def clearTimer (s : State) : State := { s with timer := .idle }

/-- Models `avg = rts.length ? rts.reduce((a, b) => a + b, 0) / rts.length : maxReaction`. -/
def fieldAvg (rts : List ℕ) (maxReaction : ℕ) : ℚ :=
  if rts.length ≠ 0 then (rts.sum : ℚ) / (rts.length : ℚ) else (maxReaction : ℚ)

/-- Models `score = 10 - misses - Math.round((avg - 200) / 200)` followed by
`score = Math.max(1, Math.min(10, score))`. -/
def fieldScore (misses : ℕ) (avg : ℚ) : ℤ :=
  max 1 (min 10 (10 - (misses : ℤ) - jsRound ((avg - 200) / 200)))

/-- Models `finishTest()`: clears the timer, sets `done` and emits the result. -/
def finishTest (s : State) : State :=
  { clearTimer s with
    done := true
    result := some
      { score := fieldScore s.misses (fieldAvg s.rts s.maxReaction)
        misses := s.misses
        avg := fieldAvg s.rts s.maxReaction
        rts := s.rts } }

/-- The synchronous part of `showDot()`: clear any pending timer, hide the
dot, and arm the miss timer (`timerRef.current = setTimeout(..., missDelay)`). -/
def showDot (s : State) : State :=
  { clearTimer s with dotVisible := false, timer := .missTimer }

/-- The anonymous `setTimeout(..., delay)` callback inside `showDot`: the dot
becomes visible at time `now` and `startTimeRef` is recorded. -/
def dotAppear (now : ℕ) (s : State) : State :=
  { s with dotVisible := true, startTime := some now }

/-- The miss-timer callback armed by `showDot`. It only runs if the timer is
still armed (a cleared timeout never fires). Mirrors lines 56–76 of
FieldTest.tsx: count a miss if the dot is visible, hide the dot, then advance
to the next trial (calling `showDot` again) or finish. -/
def missTimerFire (s : State) : State :=
  if s.timer = .missTimer then
    let s1 := if s.dotVisible then { s with misses := s.misses + 1 } else s
    let s2 := { s1 with dotVisible := false, timer := .idle }
    if s2.trial + 1 < s2.totalTrials then
      showDot { s2 with trial := s2.trial + 1 }
    else
      finishTest s2
  else s

/-- Models `handleClick()` at wall-clock time `now` (lines 102–122): guarded by
`if (!dotVisibleRef.current || !startTimeRef.current) return;`; otherwise it
records the reaction, clears the miss timer, hides the dot, and advances
(arming the 800 ms pause timer) or finishes. -/
def handleClick (now : ℕ) (s : State) : State :=
  match s.dotVisible, s.startTime with
  | true, some t0 =>
    let reaction := now - t0
    let s1 := clearTimer { s with rts := s.rts ++ [reaction], dotVisible := false }
    if s1.trial + 1 < s1.totalTrials then
      { s1 with trial := s1.trial + 1, timer := .pauseTimer }
    else
      finishTest s1
  | _, _ => s

/-- The pause-timer callback (`setTimeout(showDot, 800)`): runs `showDot` if
that timer is still the armed one. -/
def pauseFire (s : State) : State :=
  if s.timer = .pauseTimer then showDot s else s

/-- Models `startTest()`: reset all refs and run `showDot` for the first trial. -/
def startTest (totalTrials maxReaction : ℕ) : State :=
  showDot
    { rts := []
      misses := 0
      trial := 0
      totalTrials := totalTrials
      maxReaction := maxReaction
      dotVisible := false
      startTime := none
      timer := .idle
      done := false
      result := none }

/-- The observable outcome of one trial: either the user clicked `reaction`
milliseconds after the dot appeared at `appearedAt`, or the response window
elapsed with no click. -/
inductive TrialOutcome
  | response (appearedAt reaction : ℕ)
  | timeout (appearedAt : ℕ)
deriving DecidableEq, Repr

/-- Drive the engine through one trial: if the state is between a click and
the next dot, the pending pause timer fires first (`showDot`); then the dot
appears, and finally either the user clicks or the miss timer fires. -/
def processTrial (s : State) (o : TrialOutcome) : State :=
  match o with
  | .response t r => handleClick (t + r) (dotAppear t (pauseFire s))
  | .timeout t => missTimerFire (dotAppear t (pauseFire s))

/-- A whole session: `startTest` followed by one outcome per trial. -/
def runSession (totalTrials maxReaction : ℕ) (outcomes : List TrialOutcome) : State :=
  outcomes.foldl processTrial (startTest totalTrials maxReaction)

/-- The reaction times a list of outcomes records, in order. -/
def outcomeReactions : List TrialOutcome → List ℕ
  | [] => []
  | .response _ r :: os => r :: outcomeReactions os
  | .timeout _ :: os => outcomeReactions os

/-- The number of misses a list of outcomes records. -/
def outcomeMisses : List TrialOutcome → ℕ
  | [] => 0
  | .response _ _ :: os => outcomeMisses os
  | .timeout _ :: os => 1 + outcomeMisses os

theorem processTrial_response (s : State) (t r : ℕ)
    (htimer : s.timer = .missTimer ∨ s.timer = .pauseTimer) :
    processTrial s (.response t r) =
      if s.trial + 1 < s.totalTrials then
        { s with rts := s.rts ++ [r], dotVisible := false, startTime := some t,
                 timer := .pauseTimer, trial := s.trial + 1 }
      else
        finishTest { s with rts := s.rts ++ [r], dotVisible := false,
                            startTime := some t, timer := .idle } := by
  cases s with
  | mk rts misses trial totalTrials maxReaction dotVisible startTime timer done result =>
    rcases htimer with h | h <;> subst h <;>
      simp [processTrial, pauseFire, showDot, clearTimer, dotAppear, handleClick]

theorem processTrial_timeout (s : State) (t : ℕ)
    (htimer : s.timer = .missTimer ∨ s.timer = .pauseTimer) :
    processTrial s (.timeout t) =
      if s.trial + 1 < s.totalTrials then
        { s with misses := s.misses + 1, dotVisible := false, startTime := some t,
                 timer := .missTimer, trial := s.trial + 1 }
      else
        finishTest { s with misses := s.misses + 1, dotVisible := false,
                            startTime := some t, timer := .idle } := by
  cases s with
  | mk rts misses trial totalTrials maxReaction dotVisible startTime timer done result =>
    rcases htimer with h | h <;> subst h <;>
      simp [processTrial, pauseFire, showDot, clearTimer, dotAppear, missTimerFire]

theorem run_aux (outcomes : List TrialOutcome) :
    ∀ s : State,
      (s.timer = .missTimer ∨ s.timer = .pauseTimer) →
      s.trial + outcomes.length = s.totalTrials →
      outcomes ≠ [] →
      (outcomes.foldl processTrial s).result =
        some
          { score := fieldScore (s.misses + outcomeMisses outcomes)
              (fieldAvg (s.rts ++ outcomeReactions outcomes) s.maxReaction)
            misses := s.misses + outcomeMisses outcomes
            avg := fieldAvg (s.rts ++ outcomeReactions outcomes) s.maxReaction
            rts := s.rts ++ outcomeReactions outcomes } := by
  induction outcomes with
  | nil => intro s _ _ hne; exact absurd rfl hne
  | cons o os ih =>
    intro s htimer hlen _
    match os, hlen with
    | [], hlen =>
      have hnlt : ¬ s.trial + 1 < s.totalTrials := by
        simp at hlen; omega
      cases o with
      | response t r =>
        simp only [List.foldl, processTrial_response s t r htimer, if_neg hnlt]
        simp [finishTest, clearTimer, outcomeMisses, outcomeReactions]
      | timeout t =>
        simp only [List.foldl, processTrial_timeout s t htimer, if_neg hnlt]
        simp [finishTest, clearTimer, outcomeMisses, outcomeReactions]
    | o' :: os', hlen =>
      have hlt : s.trial + 1 < s.totalTrials := by
        simp at hlen; omega
      cases o with
      | response t r =>
        rw [List.foldl_cons, processTrial_response s t r htimer, if_pos hlt]
        rw [ih _ (Or.inr rfl) (by simp at hlen ⊢; omega) (by simp)]
        simp [outcomeMisses, outcomeReactions, List.append_assoc]
      | timeout t =>
        rw [List.foldl_cons, processTrial_timeout s t htimer, if_pos hlt]
        rw [ih _ (Or.inl rfl) (by simp at hlen ⊢; omega) (by simp)]
        simp [outcomeMisses, outcomeReactions]
        constructor
        · ring_nf
        · omega

/-- Claim C1: for every completed Stimulus Trial Engine session, the terminal
result's score equals `clamp(10 − misses − round((avg − 200) / 200), 1, 10)`,
where `avg` is the mean of the recorded reaction times, or `maxReactionMs`
when no reaction times were ever recorded. -/
theorem fieldC1_terminal_score (T maxR : ℕ) (outcomes : List TrialOutcome)
    (hT : outcomes.length = T) (hpos : 0 < T) :
    (runSession T maxR outcomes).result =
      some
        { score := max 1 (min 10 (10 - (outcomeMisses outcomes : ℤ) -
            jsRound ((fieldAvg (outcomeReactions outcomes) maxR - 200) / 200)))
          misses := outcomeMisses outcomes
          avg := fieldAvg (outcomeReactions outcomes) maxR
          rts := outcomeReactions outcomes } := by
  have hne : outcomes ≠ [] := by
    intro h
    rw [h] at hT
    simp at hT
    omega
  have h := run_aux outcomes (startTest T maxR)
    (Or.inl rfl)
    (by simp [startTest, showDot, clearTimer, hT])
    hne
  simpa [startTest, showDot, clearTimer, fieldScore] using h

/-- Witness for C1 at Scenario A: 6 trials, reaction times 300/400/500/600 ms
and two misses give avg 450 and score 7. -/
theorem fieldC1_terminal_score_witness :
    (runSession 6 2000
        [.response 0 300, .response 1000 400, .response 2000 500,
         .response 3000 600, .timeout 4000, .timeout 5000]).result =
      some { score := 7, misses := 2, avg := 450, rts := [300, 400, 500, 600] } := by
  have h := fieldC1_terminal_score 6 2000
    [.response 0 300, .response 1000 400, .response 2000 500,
     .response 3000 600, .timeout 4000, .timeout 5000] rfl (by decide)
  rw [h]
  norm_num [outcomeMisses, outcomeReactions, fieldAvg, jsRound]

/-- Claim C6: a response arriving after the miss timer has fired for the
current trial is a no-op, and conversely a response that is processed first
cancels the miss timer, whose later firing is then a no-op. -/
theorem fieldC6_race_resolution (s : State) (now t0 : ℕ)
    (hfired : s.timer = .missTimer) :
    handleClick now (missTimerFire s) = missTimerFire s ∧
    (s.dotVisible = true → s.startTime = some t0 →
      missTimerFire (handleClick now s) = handleClick now s) := by
  cases s with
  | mk rts misses trial totalTrials maxReaction dotVisible startTime timer done result =>
    subst hfired
    constructor
    · cases dotVisible <;>
        simp only [missTimerFire, if_pos rfl] <;>
        split_ifs <;>
        simp [handleClick, showDot, clearTimer, finishTest]
    · intro hdv hst
      subst hdv
      subst hst
      simp only [handleClick]
      split_ifs <;> simp [missTimerFire, clearTimer, finishTest]

/-- Witness for C6: concrete session with a visible dot; both race orders are
checked at `now = 1234`. -/
theorem fieldC6_race_resolution_witness :
    handleClick 1234 (missTimerFire (dotAppear 5 (startTest 3 2000))) =
      missTimerFire (dotAppear 5 (startTest 3 2000)) ∧
    missTimerFire (handleClick 1234 (dotAppear 5 (startTest 3 2000))) =
      handleClick 1234 (dotAppear 5 (startTest 3 2000)) := by
  have h := fieldC6_race_resolution (dotAppear 5 (startTest 3 2000)) 1234 5 rfl
  exact ⟨h.1, h.2 rfl rfl⟩

/-- Claim C7: for all values of `misses` and `avg`, the Stimulus Trial
Engine's score lies in `[1, 10]`, is non-increasing in `misses` with `avg`
fixed, and non-increasing in `avg` with `misses` fixed. -/
theorem fieldC7_score_bounds_mono (m m' : ℕ) (avg avg' : ℚ)
    (hm : m ≤ m') (ha : avg ≤ avg') :
    1 ≤ fieldScore m avg ∧ fieldScore m avg ≤ 10 ∧
    fieldScore m' avg ≤ fieldScore m avg ∧
    fieldScore m avg' ≤ fieldScore m avg := by
  unfold fieldScore
  refine ⟨le_max_left 1 _, max_le (by norm_num) (min_le_left _ _), ?_, ?_⟩
  · have hmz : (m : ℤ) ≤ (m' : ℤ) := by exact_mod_cast hm
    exact max_le_max le_rfl (min_le_min le_rfl (by omega))
  · have hj : jsRound ((avg - 200) / 200) ≤ jsRound ((avg' - 200) / 200) :=
      jsRound_mono (by linarith)
    exact max_le_max le_rfl (min_le_min le_rfl (by omega))

/-- Witness for C7 at `misses 2 ≤ 3` and `avg 450 ≤ 500`. -/
theorem fieldC7_score_bounds_mono_witness :
    1 ≤ fieldScore 2 450 ∧ fieldScore 2 450 ≤ 10 ∧
    fieldScore 3 450 ≤ fieldScore 2 450 ∧
    fieldScore 2 500 ≤ fieldScore 2 450 :=
  fieldC7_score_bounds_mono 2 3 450 500 (by norm_num) (by norm_num)

end FieldTest

namespace ContrastTest

/-- Grating orientations, with their answer labels. -/
inductive Orient
  | vertical
  | horizontal
  | diagonal
deriving DecidableEq, Repr

/-- The `orientation` tag as the string the user must type. -/
def Orient.label : Orient → String
  | .vertical => "vertical"
  | .horizontal => "horizontal"
  | .diagonal => "diagonal"

/-- The `Plate` tagged union of ContrastTest.tsx. -/
inductive Plate
  | grating (orientation : Orient) (baseContrast : ℚ) (freq : ℕ)
  | noise (answer : String) (baseDifficulty : ℕ)
  | number (answer : String) (baseContrast : ℚ)
deriving DecidableEq, Repr

/-- The fixed `basePlates` pool (9 plates). -/
def basePlates : List Plate :=
  [.grating .vertical (85/100) 8,
   .grating .horizontal (7/10) 12,
   .grating .diagonal (55/100) 10,
   .noise "12" 1,
   .noise "8" 2,
   .noise "29" 3,
   .number "5" (32/100),
   .number "3" (22/100),
   .number "7" (14/100)]

def TOTAL_TRIALS : ℕ := 9
def MIN_CONTRAST : ℚ := 8/100
def MAX_CONTRAST : ℚ := 98/100

/-- Models `hash(x) = (x * 9301 + 49297) % 233280`, the deterministic helper.
The session seed is `Math.floor(Math.random() * 1e9)`, a nonnegative
integer, so the hash is modelled on `ℕ` (where JavaScript `%` agrees with
`Nat.mod`, making the surrounding `Math.abs` the identity). -/
def hash (x : ℕ) : ℕ := (x * 9301 + 49297) % 233280

/-- The selection index of `choosePlateForLevel`:
`(trialIndex + level + Math.abs(hash(rngSeed.current))) % basePlates.length`.
The staircase level is an integer, so the sum is computed in `ℤ` and the
Euclidean remainder (which agrees with JavaScript `%` on the nonnegative
values that occur) is taken. -/
def plateIdx (trialIndex : ℕ) (level : ℤ) (seed : ℕ) : ℕ :=
  (((trialIndex : ℤ) + level + (hash seed : ℤ)) % (basePlates.length : ℤ)).toNat

theorem plateIdx_lt (t : ℕ) (l : ℤ) (seed : ℕ) : plateIdx t l seed < basePlates.length := by
  have h1 : ((t : ℤ) + l + (hash seed : ℤ)) % (basePlates.length : ℤ) < (basePlates.length : ℤ) :=
    Int.emod_lt_of_pos _ (by simp [basePlates])
  have h2 : (0 : ℤ) ≤ ((t : ℤ) + l + (hash seed : ℤ)) % (basePlates.length : ℤ) :=
    Int.emod_nonneg _ (by simp [basePlates])
  unfold plateIdx
  omega

/-- Models `choosePlateForLevel` (lines 109–113): deterministic indexing into the
fixed plate pool. -/
def choosePlateForLevel (trialIndex : ℕ) (level : ℤ) (seed : ℕ) : Plate :=
  basePlates.get ⟨plateIdx trialIndex level seed, plateIdx_lt trialIndex level seed⟩

/-- Models `Number(c.toFixed(3))`: rounding to three decimal places. -/
def toFixed3 (c : ℚ) : ℚ := (jsRound (c * 1000) : ℚ) / 1000

/-- Models `levelToContrast`: factor `0.2 + (level/8)*0.8`, applied to the base
contrast and clamped to `[MIN_CONTRAST, MAX_CONTRAST]`. -/
def levelToContrast (level : ℤ) (baseContrast : ℚ) : ℚ :=
  let factor : ℚ := 2/10 + ((level : ℚ) / 8) * (8/10)
  toFixed3 (max MIN_CONTRAST (min MAX_CONTRAST (baseContrast * factor)))

/-- Models `levelToDifficulty`: the noise-plate effective difficulty factor. -/
def levelToDifficulty (level : ℤ) (baseDifficulty : ℕ) : ℚ :=
  let factor : ℚ := 2/10 + ((level : ℚ) / 8) * (8/10)
  max (5/100) (min 1 (1 - ((baseDifficulty : ℚ) - 1) * (15/100)) * factor)

/-- The effective parameter stored in a history record:
`currentPlate.contrast ?? currentPlate.difficultyFactor ?? 0`. -/
def plateEffective (p : Plate) (level : ℤ) : ℚ :=
  match p with
  | .grating _ b _ => levelToContrast level b
  | .number _ b => levelToContrast level b
  | .noise _ d => levelToDifficulty level d

/-- Correctness evaluation in `handleSubmit`: case-insensitive comparison of
the trimmed answer against the orientation label (gratings) or the literal
answer string (noise and number plates). -/
def plateCorrect (p : Plate) (ans : String) : Bool :=
  match p with
  | .grating o _ _ => ans.toLower == o.label.toLower
  | .noise a _ => ans.toLower == a.toLower
  | .number a _ => ans.toLower == a.toLower

/-- JavaScript `String.prototype.trim`: strip leading and trailing
whitespace. Modelled directly on the character list by structural recursion
so that it evaluates inside the kernel. -/
def jsTrim (s : String) : String :=
  ⟨((s.data.dropWhile Char.isWhitespace).reverse.dropWhile Char.isWhitespace).reverse⟩

/-- One `history` record: `{ plate, contrast, correct, user }`. -/
structure TrialRecord where
  plate : Plate
  contrast : ℚ
  correct : Bool
  user : String
deriving DecidableEq, Repr

inductive Phase
  | calibration
  | testing
  | done
deriving DecidableEq, Repr

/-- The Adaptive Plate Engine's session state. `result` records the score
passed to the `onResult` terminal callback, if it has fired. -/
structure ContrastState where
  phase : Phase
  trialIndex : ℕ
  staircaseLevel : ℤ
  answers : List String
  currentAnswer : String
  history : List TrialRecord
  seed : ℕ
  result : Option ℤ
deriving DecidableEq, Repr

/-- Models `score = Math.max(1, Math.round((correctCount / TOTAL_TRIALS) * 9) + 1)`. -/
def contrastScoreOf (correctCount : ℕ) : ℤ :=
  max 1 (jsRound (((correctCount : ℚ) / (TOTAL_TRIALS : ℚ)) * 9) + 1)

/-- Models `finishTest(allRecords)`: count the correct records, compute the final
score, move to the done phase and fire `onResult`. -/
def finishTest (allRecords : List TrialRecord) (s : ContrastState) : ContrastState :=
  { s with
    phase := .done
    result := some (contrastScoreOf ((allRecords.filter (fun r => r.correct)).length)) }

/-- Models `handleSubmit` (lines 240–289): reject empty (trimmed) answers; otherwise
evaluate the current plate, append the history record, run the 1-up/1-down
staircase update, advance the trial, and finish after the last trial. -/
def handleSubmit (s : ContrastState) : ContrastState :=
  let ans := jsTrim s.currentAnswer
  if ans.length = 0 then s
  else
    let plate := choosePlateForLevel s.trialIndex s.staircaseLevel s.seed
    let correct := plateCorrect plate ans
    let record : TrialRecord :=
      { plate := plate, contrast := plateEffective plate s.staircaseLevel,
        correct := correct, user := ans }
    let s' :=
      { s with
        history := s.history ++ [record]
        staircaseLevel :=
          if correct then min 8 (s.staircaseLevel + 1) else max 0 (s.staircaseLevel - 1)
        answers := s.answers ++ [ans]
        currentAnswer := ""
        trialIndex := s.trialIndex + 1 }
    if s.trialIndex + 1 ≥ TOTAL_TRIALS then finishTest (s.history ++ [record]) s'
    else s'

/-- Typing an answer into the input box and submitting it. -/
def submit (s : ContrastState) (a : String) : ContrastState :=
  handleSubmit { s with currentAnswer := a }

/-- The `Start Test` button: enter the testing phase with everything reset
and the staircase at the middle level 4. -/
def startTest (seed : ℕ) : ContrastState :=
  { phase := .testing, trialIndex := 0, staircaseLevel := 4, answers := [],
    currentAnswer := "", history := [], seed := seed, result := none }

/-- Submitting a list of answers in order. -/
def runAnswers (s : ContrastState) (answers : List String) : ContrastState :=
  answers.foldl submit s

/-- The plate the testing UI presents, as derived by the `currentPlate` memo
from the trial index, the staircase level and the session seed. -/
def shownPlate (s : ContrastState) : Plate :=
  choosePlateForLevel s.trialIndex s.staircaseLevel s.seed

theorem contrastScoreOf_eq (c : ℕ) : contrastScoreOf c = (c : ℤ) + 1 := by
  unfold contrastScoreOf
  have h9 : ((TOTAL_TRIALS : ℕ) : ℚ) = 9 := by norm_num [TOTAL_TRIALS]
  rw [h9, div_mul_cancel₀ _ (by norm_num : (9 : ℚ) ≠ 0), jsRound_intCast]
  omega

theorem submit_trialIndex (s : ContrastState) (a : String) (ha : (jsTrim a).length ≠ 0) :
    (submit s a).trialIndex = s.trialIndex + 1 := by
  simp only [submit, handleSubmit, finishTest]
  split_ifs <;> simp_all

theorem submit_history_len (s : ContrastState) (a : String) (ha : (jsTrim a).length ≠ 0) :
    (submit s a).history.length = s.history.length + 1 := by
  simp only [submit, handleSubmit, finishTest]
  split_ifs <;> simp_all

theorem submit_final (s : ContrastState) (a : String) (ha : (jsTrim a).length ≠ 0)
    (hge : s.trialIndex + 1 ≥ TOTAL_TRIALS) :
    (submit s a).result =
      some (contrastScoreOf (((submit s a).history.filter (fun r => r.correct)).length)) := by
  simp only [submit, handleSubmit, finishTest]
  rw [if_neg (by simpa using ha), if_pos (by simpa using hge)]

theorem submit_not_final (s : ContrastState) (a : String) (ha : (jsTrim a).length ≠ 0)
    (hlt : ¬ s.trialIndex + 1 ≥ TOTAL_TRIALS) :
    (submit s a).result = s.result := by
  simp only [submit, handleSubmit, finishTest]
  rw [if_neg (by simpa using ha), if_neg (by simpa using hlt)]

theorem contrastRun_aux (as : List String) :
    ∀ s : ContrastState,
      (∀ a ∈ as, (jsTrim a).length ≠ 0) →
      s.trialIndex + as.length = TOTAL_TRIALS →
      as ≠ [] →
      (runAnswers s as).result =
        some (contrastScoreOf
          (((runAnswers s as).history.filter (fun r => r.correct)).length)) ∧
      (runAnswers s as).history.length = s.history.length + as.length := by
  induction as with
  | nil => intro s _ _ hne; exact absurd rfl hne
  | cons a as ih =>
    intro s hne hlen _
    have ha : (jsTrim a).length ≠ 0 := hne a (by simp)
    match as with
    | [] =>
      have hge : s.trialIndex + 1 ≥ TOTAL_TRIALS := by simp at hlen; omega
      have h1 : runAnswers s [a] = submit s a := rfl
      rw [h1]
      exact ⟨submit_final s a ha hge, by rw [submit_history_len s a ha]; simp⟩
    | a' :: as' =>
      have hlt : ¬ s.trialIndex + 1 ≥ TOTAL_TRIALS := by
        simp at hlen; unfold TOTAL_TRIALS at hlen ⊢; omega
      have h1 : runAnswers s (a :: a' :: as') = runAnswers (submit s a) (a' :: as') := rfl
      have hlen' : (submit s a).trialIndex + (a' :: as').length = TOTAL_TRIALS := by
        rw [submit_trialIndex s a ha]
        simp at hlen ⊢
        omega
      have ih' := ih (submit s a) (fun b hb => hne b (by simp [hb])) hlen' (by simp)
      rw [h1]
      refine ⟨ih'.1, ?_⟩
      rw [ih'.2, submit_history_len s a ha]
      simp
      omega

/-- Claim C2: a completed 9-trial Adaptive Plate Engine session terminates
with score `max(1, round((correctCount/9)*9) + 1)` where `correctCount`
counts the correctly answered trials of the session history; this score lies
in `[1, 10]` and is monotone non-decreasing in `correctCount`. -/
theorem contrastC2_terminal_score (seed : ℕ) (answers : List String)
    (hlen : answers.length = TOTAL_TRIALS)
    (hne : ∀ a ∈ answers, (jsTrim a).length ≠ 0) :
    (runAnswers (startTest seed) answers).result =
      some (contrastScoreOf
        (((runAnswers (startTest seed) answers).history.filter (fun r => r.correct)).length)) ∧
    1 ≤ contrastScoreOf
        (((runAnswers (startTest seed) answers).history.filter (fun r => r.correct)).length) ∧
    contrastScoreOf
        (((runAnswers (startTest seed) answers).history.filter (fun r => r.correct)).length) ≤ 10 ∧
    ∀ c c' : ℕ, c ≤ c' → contrastScoreOf c ≤ contrastScoreOf c' := by
  have hne' : answers ≠ [] := by
    intro h
    rw [h] at hlen
    simp [TOTAL_TRIALS] at hlen
  have aux := contrastRun_aux answers (startTest seed)
    hne (by simpa [startTest] using hlen) hne'
  have hhist : (runAnswers (startTest seed) answers).history.length = TOTAL_TRIALS := by
    rw [aux.2]
    simp [startTest, hlen]
  have hfilter :
      (((runAnswers (startTest seed) answers).history.filter (fun r => r.correct)).length) ≤
        TOTAL_TRIALS := by
    calc ((runAnswers (startTest seed) answers).history.filter (fun r => r.correct)).length
        ≤ (runAnswers (startTest seed) answers).history.length := List.length_filter_le _ _
      _ = TOTAL_TRIALS := hhist
  refine ⟨aux.1, ?_, ?_, ?_⟩
  · rw [contrastScoreOf_eq]; omega
  · rw [contrastScoreOf_eq]
    unfold TOTAL_TRIALS at hfilter
    omega
  · intro c c' hc
    rw [contrastScoreOf_eq, contrastScoreOf_eq]
    omega

/-- Witness for C2: a full session with seed 0 and nine nonempty answers. -/
theorem contrastC2_terminal_score_witness :
    (runAnswers (startTest 0) (List.replicate 9 "x")).result =
      some (contrastScoreOf
        (((runAnswers (startTest 0) (List.replicate 9 "x")).history.filter
            (fun r => r.correct)).length)) ∧
    1 ≤ contrastScoreOf
        (((runAnswers (startTest 0) (List.replicate 9 "x")).history.filter
            (fun r => r.correct)).length) ∧
    contrastScoreOf
        (((runAnswers (startTest 0) (List.replicate 9 "x")).history.filter
            (fun r => r.correct)).length) ≤ 10 ∧
    ∀ c c' : ℕ, c ≤ c' → contrastScoreOf c ≤ contrastScoreOf c' :=
  contrastC2_terminal_score 0 (List.replicate 9 "x") (by rfl)
    (by intro a hmem; rw [List.eq_of_mem_replicate hmem]; decide)

theorem submit_level_bounds (s : ContrastState) (a : String)
    (h0 : 0 ≤ s.staircaseLevel) (h8 : s.staircaseLevel ≤ 8) :
    0 ≤ (submit s a).staircaseLevel ∧ (submit s a).staircaseLevel ≤ 8 := by
  simp only [submit, handleSubmit, finishTest]
  split_ifs <;> simp <;> omega

/-- Claim C5: the staircase level always stays in `[0, 8]` over a session,
and every submitted non-empty answer updates it to `min 8 (level + 1)` on a
correct answer and `max 0 (level − 1)` on an incorrect one (so the bounds
clamp: correct at 8 keeps 8, incorrect at 0 keeps 0). -/
theorem contrastC5_staircase (seed : ℕ) (answers : List String) (a : String)
    (ha : (jsTrim a).length ≠ 0) :
    (0 ≤ (runAnswers (startTest seed) answers).staircaseLevel ∧
      (runAnswers (startTest seed) answers).staircaseLevel ≤ 8) ∧
    (∀ s : ContrastState,
      (submit s a).staircaseLevel =
        if plateCorrect (choosePlateForLevel s.trialIndex s.staircaseLevel s.seed) (jsTrim a)
        then min 8 (s.staircaseLevel + 1)
        else max 0 (s.staircaseLevel - 1)) := by
  constructor
  · have inv : ∀ (as : List String) (s : ContrastState),
        0 ≤ s.staircaseLevel → s.staircaseLevel ≤ 8 →
        0 ≤ (runAnswers s as).staircaseLevel ∧ (runAnswers s as).staircaseLevel ≤ 8 := by
      intro as
      induction as with
      | nil => intro s h0 h8; exact ⟨h0, h8⟩
      | cons b bs ih =>
        intro s h0 h8
        have hstep := submit_level_bounds s b h0 h8
        exact ih (submit s b) hstep.1 hstep.2
    exact inv answers (startTest seed) (by simp [startTest]) (by simp [startTest])
  · intro s
    simp only [submit, handleSubmit, finishTest]
    rw [if_neg (by simpa using ha)]
    split_ifs <;> rfl

/-- Witness for C5: a session with seed 0 and answers `["x", "x"]`, and the
single-step update at the answer `"x"`. -/
theorem contrastC5_staircase_witness :
    (0 ≤ (runAnswers (startTest 0) ["x", "x"]).staircaseLevel ∧
      (runAnswers (startTest 0) ["x", "x"]).staircaseLevel ≤ 8) ∧
    (∀ s : ContrastState,
      (submit s "x").staircaseLevel =
        if plateCorrect (choosePlateForLevel s.trialIndex s.staircaseLevel s.seed) (jsTrim "x")
        then min 8 (s.staircaseLevel + 1)
        else max 0 (s.staircaseLevel - 1)) :=
  contrastC5_staircase 0 ["x", "x"] "x" (by decide)

/-- Claim C8: a submission whose answer is empty after trimming (including
whitespace-only input) is rejected with no state advance: trial index,
staircase level, history and answers are unchanged and no terminal callback
fires. -/
theorem contrastC8_empty_rejected (s : ContrastState) (a : String)
    (h : (jsTrim a).length = 0) :
    (submit s a).trialIndex = s.trialIndex ∧
    (submit s a).staircaseLevel = s.staircaseLevel ∧
    (submit s a).history = s.history ∧
    (submit s a).answers = s.answers ∧
    (submit s a).result = s.result := by
  simp [submit, handleSubmit, h]

/-- Witness for C8: submitting the whitespace-only answer `"   "` in a fresh
session changes nothing. -/
theorem contrastC8_empty_rejected_witness :
    (submit (startTest 7) "   ").trialIndex = (startTest 7).trialIndex ∧
    (submit (startTest 7) "   ").staircaseLevel = (startTest 7).staircaseLevel ∧
    (submit (startTest 7) "   ").history = (startTest 7).history ∧
    (submit (startTest 7) "   ").answers = (startTest 7).answers ∧
    (submit (startTest 7) "   ").result = (startTest 7).result :=
  contrastC8_empty_rejected (startTest 7) "   " (by decide)

/-- Claim C10: the plate presented at a trial is a deterministic function of
the trial index, the staircase level and the session seed, so two sessions
agreeing on those three agree on the plate shown. -/
theorem contrastC10_plate_determinism (s1 s2 : ContrastState)
    (ht : s1.trialIndex = s2.trialIndex)
    (hl : s1.staircaseLevel = s2.staircaseLevel)
    (hs : s1.seed = s2.seed) :
    shownPlate s1 = shownPlate s2 := by
  unfold shownPlate
  rw [ht, hl, hs]

/-- Witness for C10: two states with different phases, answers and histories
but the same trial index, level and seed show the same plate. -/
theorem contrastC10_plate_determinism_witness :
    shownPlate
        { phase := .testing, trialIndex := 3, staircaseLevel := 5, answers := ["7"],
          currentAnswer := "zz", history := [], seed := 42, result := none } =
      shownPlate
        { phase := .done, trialIndex := 3, staircaseLevel := 5, answers := [],
          currentAnswer := "", history := [], seed := 42, result := some 1 } :=
  contrastC10_plate_determinism _ _ rfl rfl rfl

end ContrastTest

namespace IrisTracker

/-- The `detections` ref: per-direction frame counters. -/
structure Detections where
  left : ℕ
  right : ℕ
  up : ℕ
  down : ℕ
deriving DecidableEq, Repr

inductive Verdict
  | normal
  | abnormal
deriving DecidableEq, Repr

/-- The `ResultSummary` passed to `onComplete`. -/
structure ResultSummary where
  left : Bool
  right : Bool
  up : Bool
  down : Bool
  verdict : Verdict
deriving DecidableEq, Repr

def MIN_DETECTIONS : ℕ := 8
def CALIB_DURATION_FRAMES : ℕ := 40
def DX_THRESHOLD : ℚ := 35/1000
def DY_THRESHOLD : ℚ := 3/100

/-- The two eye centroids `eyeCentroid(leftEyeIdx)` / `eyeCentroid(rightEyeIdx)`
of a face-bearing frame, in normalized coordinates. -/
structure EyeCentroids where
  lx : ℚ
  ly : ℚ
  rx : ℚ
  ry : ℚ
deriving DecidableEq, Repr

/-- The `baseline` ref: `{ lx, ly, rx, ry }`. -/
structure Baseline where
  lx : ℚ
  ly : ℚ
  rx : ℚ
  ry : ℚ
deriving DecidableEq, Repr

/-- The tracker's session state: the `running` flag, the pending `stopTimer`
(cleared by the effect cleanup when `running` flips), the refs `detections`,
`baseline`, `calibFrames`, `frameCount`, and the list of values passed to the
`onComplete` terminal callback so far. -/
structure TrackerState where
  running : Bool
  timerPending : Bool
  detections : Detections
  baseline : Option Baseline
  calibFrames : ℕ
  frameCount : ℕ
  completions : List ResultSummary
deriving DecidableEq, Repr

/-- The evaluation shared by `finishAndCleanup` (lines 637–656) and the Stop
button: each direction is OK when its counter reached `MIN_DETECTIONS`, and
the verdict is normal exactly when all four are OK. -/
def evalDetections (d : Detections) : ResultSummary :=
  let leftOK := decide (MIN_DETECTIONS ≤ d.left)
  let rightOK := decide (MIN_DETECTIONS ≤ d.right)
  let upOK := decide (MIN_DETECTIONS ≤ d.up)
  let downOK := decide (MIN_DETECTIONS ≤ d.down)
  let allOK := leftOK && rightOK && upOK && downOK
  { left := leftOK, right := rightOK, up := upOK, down := downOK,
    verdict := if allOK then .normal else .abnormal }

/-- The Start button plus the reset inside `start()`: counters, baseline and
frame counters cleared, the `durationSec` stop timer armed. -/
def startTracker : TrackerState :=
  { running := true, timerPending := true, detections := ⟨0, 0, 0, 0⟩,
    baseline := none, calibFrames := 0, frameCount := 0, completions := [] }

/-- Models `onResults` (lines 659–789), restricted to its state effects. A `none`
frame is a frame without a face: it only bumps `frameCount`. For a
face-bearing frame the code first tries the calibration branch — guarded by
`!baseline.current && calibFrames.current < CALIB_DURATION_FRAMES` — which
initializes the baseline to the current centroids and folds the frame into a
running average; otherwise it falls back to the last raw position if the
baseline is still unset, and then accumulates directional detections from the
two eyes' averaged deltas against the baseline. -/
def onResults (frame : Option EyeCentroids) (s : TrackerState) : TrackerState :=
  let s := { s with frameCount := s.frameCount + 1 }
  match frame with
  | none => s
  | some e =>
    if s.baseline = none ∧ s.calibFrames < CALIB_DURATION_FRAMES then
      let b0 := s.baseline.getD ⟨e.lx, e.ly, e.rx, e.ry⟩
      let n : ℚ := (s.calibFrames : ℚ)
      { s with
        baseline := some ⟨(b0.lx * n + e.lx) / (n + 1), (b0.ly * n + e.ly) / (n + 1),
                          (b0.rx * n + e.rx) / (n + 1), (b0.ry * n + e.ry) / (n + 1)⟩
        calibFrames := s.calibFrames + 1 }
    else
      let b := s.baseline.getD ⟨e.lx, e.ly, e.rx, e.ry⟩
      let dx := ((e.lx - b.lx) + (e.rx - b.rx)) / 2
      let dy := ((e.ly - b.ly) + (e.ry - b.ry)) / 2
      { s with
        baseline := some b
        detections :=
          { left := s.detections.left + (if dx ≤ -DX_THRESHOLD then 1 else 0)
            right := s.detections.right + (if DX_THRESHOLD ≤ dx then 1 else 0)
            up := s.detections.up + (if dy ≤ -DY_THRESHOLD then 1 else 0)
            down := s.detections.down + (if DY_THRESHOLD ≤ dy then 1 else 0) } }

/-- Models `finishAndCleanup()`: stop everything and fire `onComplete` with the
evaluation of the current counters. -/
def finishAndCleanup (s : TrackerState) : TrackerState :=
  { s with
    running := false
    timerPending := false
    completions := s.completions ++ [evalDetections s.detections] }

/-- The `durationSec` stop timer: `finishAndCleanup` runs only if the timeout
is still pending (the effect cleanup clears it otherwise). -/
def timeoutFire (s : TrackerState) : TrackerState :=
  if s.timerPending then finishAndCleanup s else s

/-- Pressing the Stop button (lines 865–895). The button is rendered with
`disabled={!running}`, so the click only acts on a running session; it then
stops the session (the effect cleanup clears the stop timer) and fires
`onComplete` with the evaluation of the current counters. -/
def stopClick (s : TrackerState) : TrackerState :=
  if s.running then
    { s with
      running := false
      timerPending := false
      completions := s.completions ++ [evalDetections s.detections] }
  else s

/-- Claim C3: ending a session by explicit stop or by timeout fires the
terminal callback with the evaluation of the final counters, and in that
evaluation every direction flag is true iff its counter reached the
threshold 8, with a normal verdict iff all four flags are true. -/
theorem irisC3_verdict (s : TrackerState)
    (hrun : s.running = true) (hpend : s.timerPending = true) :
    (stopClick s).completions = s.completions ++ [evalDetections s.detections] ∧
    (timeoutFire s).completions = s.completions ++ [evalDetections s.detections] ∧
    (∀ d : Detections,
      ((evalDetections d).left = true ↔ MIN_DETECTIONS ≤ d.left) ∧
      ((evalDetections d).right = true ↔ MIN_DETECTIONS ≤ d.right) ∧
      ((evalDetections d).up = true ↔ MIN_DETECTIONS ≤ d.up) ∧
      ((evalDetections d).down = true ↔ MIN_DETECTIONS ≤ d.down) ∧
      ((evalDetections d).verdict = .normal ↔
        ((evalDetections d).left = true ∧ (evalDetections d).right = true ∧
          (evalDetections d).up = true ∧ (evalDetections d).down = true))) := by
  refine ⟨by simp [stopClick, hrun], by simp [timeoutFire, hpend, finishAndCleanup], ?_⟩
  intro d
  refine ⟨by simp [evalDetections], by simp [evalDetections], by simp [evalDetections],
    by simp [evalDetections], ?_⟩
  by_cases hall : MIN_DETECTIONS ≤ d.left ∧ MIN_DETECTIONS ≤ d.right ∧
      MIN_DETECTIONS ≤ d.up ∧ MIN_DETECTIONS ≤ d.down
  · simp [evalDetections, hall.1, hall.2.1, hall.2.2.1, hall.2.2.2]
  · rw [not_and_or, not_and_or, not_and_or] at hall
    constructor
    · intro hv
      exfalso
      simp only [evalDetections] at hv
      rcases hall with h | h | h | h <;> simp [h] at hv
    · intro hflags
      simp only [evalDetections] at hflags
      simp only [decide_eq_true_eq] at hflags
      rcases hall with h | h | h | h <;> exact absurd (by tauto) h

/-- Witness for C3 at Scenario D: a running session whose counters ended at
left 10, right 3, up 9, down 8 — three directions seen, verdict abnormal. -/
theorem irisC3_verdict_witness :
    (stopClick
          { running := true, timerPending := true, detections := ⟨10, 3, 9, 8⟩,
            baseline := some ⟨0, 0, 0, 0⟩, calibFrames := 40, frameCount := 360,
            completions := [] }).completions =
        [] ++ [evalDetections ⟨10, 3, 9, 8⟩] ∧
    (timeoutFire
          { running := true, timerPending := true, detections := ⟨10, 3, 9, 8⟩,
            baseline := some ⟨0, 0, 0, 0⟩, calibFrames := 40, frameCount := 360,
            completions := [] }).completions =
        [] ++ [evalDetections ⟨10, 3, 9, 8⟩] ∧
    (∀ d : Detections,
      ((evalDetections d).left = true ↔ MIN_DETECTIONS ≤ d.left) ∧
      ((evalDetections d).right = true ↔ MIN_DETECTIONS ≤ d.right) ∧
      ((evalDetections d).up = true ↔ MIN_DETECTIONS ≤ d.up) ∧
      ((evalDetections d).down = true ↔ MIN_DETECTIONS ≤ d.down) ∧
      ((evalDetections d).verdict = .normal ↔
        ((evalDetections d).left = true ∧ (evalDetections d).right = true ∧
          (evalDetections d).up = true ∧ (evalDetections d).down = true))) :=
  irisC3_verdict
    { running := true, timerPending := true, detections := ⟨10, 3, 9, 8⟩,
      baseline := some ⟨0, 0, 0, 0⟩, calibFrames := 40, frameCount := 360,
      completions := [] } rfl rfl

/-- Claim C9: stopping an already-finished session is a no-op (the Stop
button is disabled once `running` is false), so `onComplete` fires exactly
once: a stop fired on a running session appends exactly one completion and a
second stop, or the old session timer, adds nothing. -/
theorem irisC9_stop_once (s : TrackerState) (hdone : s.running = false) :
    stopClick s = s ∧
    (∀ s' : TrackerState, s'.running = true →
      (stopClick (stopClick s')).completions =
        s'.completions ++ [evalDetections s'.detections] ∧
      timeoutFire (stopClick s') = stopClick s') := by
  refine ⟨by simp [stopClick, hdone], ?_⟩
  intro s' hrun
  constructor
  · simp [stopClick, hrun]
  · simp [stopClick, hrun, timeoutFire]

/-- Witness for C9: a finished session is untouched by another stop, and a
running session's stop fires exactly one completion. -/
theorem irisC9_stop_once_witness :
    stopClick
        { running := false, timerPending := false, detections := ⟨10, 3, 9, 8⟩,
          baseline := some ⟨0, 0, 0, 0⟩, calibFrames := 40, frameCount := 360,
          completions := [evalDetections ⟨10, 3, 9, 8⟩] } =
      { running := false, timerPending := false, detections := ⟨10, 3, 9, 8⟩,
        baseline := some ⟨0, 0, 0, 0⟩, calibFrames := 40, frameCount := 360,
        completions := [evalDetections ⟨10, 3, 9, 8⟩] } ∧
    (∀ s' : TrackerState, s'.running = true →
      (stopClick (stopClick s')).completions =
        s'.completions ++ [evalDetections s'.detections] ∧
      timeoutFire (stopClick s') = stopClick s') :=
  irisC9_stop_once
    { running := false, timerPending := false, detections := ⟨10, 3, 9, 8⟩,
      baseline := some ⟨0, 0, 0, 0⟩, calibFrames := 40, frameCount := 360,
      completions := [evalDetections ⟨10, 3, 9, 8⟩] } rfl

/-- Claim C4, behavior of the code at a failing input: two face-bearing
frames, the first with both eye centroids at `(0, 0)` and the second with
both at `(0.1, 0.1)`. Because the calibration branch is guarded by
`!baseline.current && calibFrames.current < CALIB_DURATION_FRAMES` and the
baseline is set on the very first face frame, calibration stops after frame
one: the baseline stays the first frame's raw centroids instead of a running
mean over 40 frames, `calibFrames` never passes 1, and the second frame is
already tracked (here it increments the right and down counters). -/
theorem irisC4_calibration_freezes_after_one_frame :
    (onResults (some ⟨1/10, 1/10, 1/10, 1/10⟩)
        (onResults (some ⟨0, 0, 0, 0⟩) startTracker)).baseline = some ⟨0, 0, 0, 0⟩ ∧
    (onResults (some ⟨1/10, 1/10, 1/10, 1/10⟩)
        (onResults (some ⟨0, 0, 0, 0⟩) startTracker)).calibFrames = 1 ∧
    (onResults (some ⟨1/10, 1/10, 1/10, 1/10⟩)
        (onResults (some ⟨0, 0, 0, 0⟩) startTracker)).detections =
      ⟨0, 1, 0, 1⟩ := by
  have h1 : onResults (some ⟨0, 0, 0, 0⟩) startTracker =
      { running := true, timerPending := true, detections := ⟨0, 0, 0, 0⟩,
        baseline := some ⟨0, 0, 0, 0⟩, calibFrames := 1, frameCount := 1,
        completions := [] } := by
    simp only [onResults, startTracker]
    rw [if_pos (by simp [CALIB_DURATION_FRAMES])]
    norm_num
  rw [h1]
  simp only [onResults]
  rw [if_neg (by simp)]
  refine ⟨by norm_num, rfl, ?_⟩
  have hdx : (((1/10 : ℚ) - 0) + ((1/10 : ℚ) - 0)) / 2 = 1/10 := by norm_num
  norm_num [hdx, DX_THRESHOLD, DY_THRESHOLD]

end IrisTracker
